import Mathlib

/-!
Verification of the message delivery orchestration core of the imeSSagE
repository: the lifecycle state machine and routing helpers
(server/models/routing_state_machine.py), the channel selection policy
(server/utils/contact_manager.py) and the queue backed worker engine
(server/workers/redis_workers.py), embedded shallowly.  Python floats for
timestamps are modelled as natural numbers, redis hashes as association
lists from message id to a record of optional string valued fields, and
the two redis lists with their head on the LPUSH side.  The channel
adapter outcome of one send attempt is an explicit parameter, since the
adapters are external collaborators.
-/

/-- MessageState enum of routing_state_machine.py (values are the lowercase
member names). -/
inductive MessageState where
  | drafted
  | routing
  | blocked
  | queued
  | sending
  | sent
  | confirmed
  | failed
  | fallback
  deriving DecidableEq, Repr

/-- String value of a state, as in the Python str-valued enum. -/
def stateValue : MessageState → String
  | .drafted => "drafted"
  | .routing => "routing"
  | .blocked => "blocked"
  | .queued => "queued"
  | .sending => "sending"
  | .sent => "sent"
  | .confirmed => "confirmed"
  | .failed => "failed"
  | .fallback => "fallback"

/-- Inverse of stateValue: the MessageState(value) enum constructor, which in
Python raises ValueError on an unknown value (modelled as none). -/
def stateOfString : String → Option MessageState
  | "drafted" => some .drafted
  | "routing" => some .routing
  | "blocked" => some .blocked
  | "queued" => some .queued
  | "sending" => some .sending
  | "sent" => some .sent
  | "confirmed" => some .confirmed
  | "failed" => some .failed
  | "fallback" => some .fallback
  | _ => none

/-- The Message entity of routing_state_machine.py. -/
structure Message where
  id : String
  «to» : String
  text : String
  state : MessageState
  channel : Option String
  attempts : Nat
  max_attempts : Nat
  fallback_channels : List String
  last_error : Option String
  created_at : Nat
  sent_at : Option Nat
  confirmed_at : Option Nat
  priority : Int
  expires_at : Option Nat
  retry_after : Option Nat
  metadata : List (String × String)
  deriving DecidableEq, Repr

/-- Message.__init__: the now argument stands for the time.time() call that
sets created_at. -/
def mkMessage (id «to» text : String) (channel : Option String) (now : Nat) : Message :=
  { id := id
    «to» := «to»
    text := text
    state := .drafted
    channel := channel
    attempts := 0
    max_attempts := 3
    fallback_channels := []
    last_error := none
    created_at := now
    sent_at := none
    confirmed_at := none
    priority := 1
    expires_at := none
    retry_after := none
    metadata := [] }

/-- The transition table dictionary of the transition function, flattened to
(state, event) to next-state entries in source order. -/
def transitionTable : List ((MessageState × String) × MessageState) :=
  [ ((.drafted, "route"), .routing)
  , ((.routing, "blocked"), .blocked)
  , ((.routing, "ok"), .queued)
  , ((.queued, "send"), .sending)
  , ((.sending, "success"), .sent)
  , ((.sending, "error"), .failed)
  , ((.sent, "confirm"), .confirmed)
  , ((.sent, "timeout"), .confirmed)
  , ((.failed, "retry"), .queued)
  , ((.failed, "fallback"), .fallback)
  , ((.fallback, "reroute"), .queued) ]

/-- Lookup of the table entry for the current state and event, mirroring the
membership test of line 81 of routing_state_machine.py. -/
def lookupTransition (s : MessageState) (e : String) : Option MessageState :=
  (transitionTable.find? (fun p => p.1.1 == s && p.1.2 == e)).map (·.2)

/-- True when some event leads from s to t in the transition table. -/
def edgeExists (s t : MessageState) : Bool :=
  transitionTable.any (fun p => p.1.1 == s && p.2 == t)

/-- transition(msg, event) of routing_state_machine.py.  The Python function
mutates msg and returns a bool; here it returns the bool together with the
updated message.  The now argument stands for the time.time() calls that
stamp sent_at and confirmed_at.  The body performs only guarded dictionary
lookups and attribute assignments, so it never raises. -/
def transition (msg : Message) (event : String) (now : Nat) : Bool × Message :=
  match lookupTransition msg.state event with
  | some s2 =>
    let msg := { msg with state := s2 }
    let msg :=
      if msg.state = MessageState.sent then { msg with sent_at := some now }
      else if msg.state = MessageState.confirmed then { msg with confirmed_at := some now }
      else msg
    (true, msg)
  | none => (false, msg)

/-- Truthiness of a Python optional string: None and the empty string are
falsy. -/
def truthyOpt : Option String → Bool
  | none => false
  | some s => s ≠ ""

/-- Duck-typed contact argument of choose_channel and is_blocked: each field
is none when the attribute is absent (hasattr false), some v when present
with value v. -/
structure ContactAttrs where
  imessage : Option Bool := none
  rcs : Option Bool := none
  email : Option String := none
  phone : Option String := none
  opt_in : Option Bool := none
  blocked : Option Bool := none
  deriving DecidableEq, Repr

/-- choose_channel(contact) of routing_state_machine.py. -/
def choose_channel : Option ContactAttrs → Option String
  | none => some "sms"
  | some c =>
    if c.imessage.getD false then some "imessage"
    else if c.rcs.getD false then some "rcs"
    else if truthyOpt c.email then some "email"
    else if truthyOpt c.phone then some "sms"
    else none

/-- is_blocked(contact, msg) of routing_state_machine.py.  The body raises
nothing (attribute probes and boolean reads), so the safety except branch
that would return True is unreachable. -/
def is_blocked (contact : Option ContactAttrs) (_msg : Message) : Bool :=
  match contact with
  | none => false
  | some c =>
    if c.opt_in.isSome && !(c.opt_in.getD true) then true
    else if c.blocked.getD false then true
    else false

/-- process_message(msg, contact) of routing_state_machine.py.  The except
branch of the source is unreachable because transition, choose_channel and
is_blocked are total and raise nothing. -/
def process_message (msg : Message) (contact : Option ContactAttrs) (now : Nat) :
    Bool × Message :=
  let (_, msg) := transition msg "route" now
  match choose_channel contact with
  | none =>
    let (_, msg) := transition msg "blocked" now
    (false, msg)
  | some ch =>
    let msg := { msg with channel := some ch }
    if is_blocked contact msg then
      let (_, msg) := transition msg "blocked" now
      (false, msg)
    else
      let (_, msg) := transition msg "ok" now
      (true, msg)

/-- fallback(msg) of routing_state_machine.py: on an empty fallback list the
state field is assigned MessageState.FAILED directly; otherwise the front
channel is popped, attempts reset, and transition is called with reroute
(its result ignored, as in the source). -/
def fallback (msg : Message) (now : Nat) : Bool × Message :=
  match msg.fallback_channels with
  | [] => (false, { msg with state := MessageState.failed })
  | c :: rest =>
    let msg := { msg with channel := some c, fallback_channels := rest, attempts := 0 }
    let (_, msg) := transition msg "reroute" now
    (true, msg)

/-- ChannelPreference enum of contact_manager.py. -/
inductive ChannelPreference where
  | sms
  | rcs
  | email
  | imessage
  deriving DecidableEq, Repr

/-- String value of a channel preference. -/
def ChannelPreference.value : ChannelPreference → String
  | .sms => "sms"
  | .rcs => "rcs"
  | .email => "email"
  | .imessage => "imessage"

/-- The Contact dataclass of contact_manager.py (datetimes as Nat). -/
structure Contact where
  id : String
  name : String
  phone : Option String := none
  email : Option String := none
  imessage_capable : Bool := false
  rcs_capable : Bool := false
  preferred_channel : Option ChannelPreference := none
  opt_in : Bool := true
  created_at : Option Nat := none
  updated_at : Option Nat := none
  last_contact_date : Option Nat := none
  message_count : Nat := 0
  blocked : Bool := false
  tags : List String := []
  deriving DecidableEq, Repr

/-- Append c unless already present, mirroring the channel not in channels
guards of get_fallback_channels. -/
def addIfAbsent (l : List ChannelPreference) (c : ChannelPreference) :
    List ChannelPreference :=
  if l.contains c then l else l ++ [c]

/-- ContactManager.get_preferred_channel of contact_manager.py: an explicit
preferred_channel is returned unconditionally; otherwise capabilities are
probed in priority order, defaulting to SMS. -/
def get_preferred_channel (contact : Contact) : ChannelPreference :=
  match contact.preferred_channel with
  | some p => p
  | none =>
    if contact.imessage_capable then .imessage
    else if contact.rcs_capable then .rcs
    else if truthyOpt contact.email then .email
    else if truthyOpt contact.phone then .sms
    else .sms

/-- ContactManager.get_fallback_channels of contact_manager.py. -/
def get_fallback_channels (contact : Contact) : List ChannelPreference :=
  let channels : List ChannelPreference := []
  let channels :=
    match contact.preferred_channel with
    | some p => addIfAbsent channels p
    | none => channels
  let channels := if contact.imessage_capable then addIfAbsent channels .imessage else channels
  let channels := if contact.rcs_capable then addIfAbsent channels .rcs else channels
  let channels := if truthyOpt contact.email then addIfAbsent channels .email else channels
  let channels := if truthyOpt contact.phone then addIfAbsent channels .sms else channels
  channels

/-- get_best_channel_for_contact of contact_manager.py. -/
def get_best_channel_for_contact : Option Contact → String
  | none => "sms"
  | some c => (get_preferred_channel c).value

/-- get_fallback_channels_for_contact of contact_manager.py. -/
def get_fallback_channels_for_contact : Option Contact → List String
  | none => ["sms", "email"]
  | some c => (get_fallback_channels c).map ChannelPreference.value

/-- Channel desirability order of the spec, best first. -/
def channelPriorityOrder : List ChannelPreference :=
  [.imessage, .rcs, .email, .sms]

/-- Whether the contact is capable of the given channel: the capability flags
for imessage and rcs, presence of an address for email and sms. -/
def capableOf (c : Contact) : ChannelPreference → Bool
  | .imessage => c.imessage_capable
  | .rcs => c.rcs_capable
  | .email => truthyOpt c.email
  | .sms => truthyOpt c.phone

/-- Transcription of the primary-channel sentence of claim C5: a preferred
channel is used only when the recipient is capable of it, otherwise the
highest-priority capable channel, and sms when there is no capability
information.  Written from the claim, for comparison with the source
functions. -/
def specPrimaryChannel : Option Contact → String
  | none => "sms"
  | some c =>
    let best := ((channelPriorityOrder.find? (capableOf c)).getD .sms).value
    match c.preferred_channel with
    | some p => if capableOf c p then p.value else best
    | none => best

/-- Transcription of the fallback-chain sentence of claim C6: all capable
channels in priority order, without the chosen primary, the preferred
channel pinned to the front when it differs from the primary, and the empty
list when no capability information exists.  Written from the claim, for
comparison with the source functions. -/
def specFallbackChain : Option Contact → List String
  | none => []
  | some c =>
    let primary := specPrimaryChannel (some c)
    let chain := (channelPriorityOrder.filter
      (fun ch => capableOf c ch && ch.value ≠ primary)).map ChannelPreference.value
    match c.preferred_channel with
    | some p =>
      if p.value ≠ primary then p.value :: chain.filter (fun ch => ch ≠ p.value)
      else chain
    | none => chain

/-- Primary channel as the source actually computes it (the amended claim
C5): an explicit preference wins unconditionally, otherwise the
highest-priority capable channel, defaulting to sms. -/
def amendedPrimaryChannel : Option Contact → String
  | none => "sms"
  | some c =>
    match c.preferred_channel with
    | some p => p.value
    | none => ((channelPriorityOrder.find? (capableOf c)).getD .sms).value

/-- Fallback chain as the source actually computes it (the amended claim
C6): the preferred channel first when set, then every capable channel in
priority order that is not the preferred one; the primary is not excluded;
a missing contact yields the fixed list [sms, email]. -/
def amendedFallbackChain : Option Contact → List String
  | none => ["sms", "email"]
  | some c =>
    let prefPart : List ChannelPreference :=
      match c.preferred_channel with
      | some p => [p]
      | none => []
    (prefPart ++ channelPriorityOrder.filter
      (fun ch => capableOf c ch && !prefPart.contains ch)).map ChannelPreference.value

/-- Decimal digit value of a character. -/
def digitVal (c : Char) : Option Nat :=
  if c = '0' then some 0 else if c = '1' then some 1 else if c = '2' then some 2
  else if c = '3' then some 3 else if c = '4' then some 4 else if c = '5' then some 5
  else if c = '6' then some 6 else if c = '7' then some 7 else if c = '8' then some 8
  else if c = '9' then some 9 else none

/-- Accumulating decimal reader over a character list. -/
def digitsVal : List Char → Option Nat → Option Nat
  | [], acc => acc
  | c :: cs, acc =>
    match digitVal c, acc with
    | some d, some n => digitsVal cs (some (n * 10 + d))
    | some d, none => digitsVal cs (some d)
    | none, _ => none

/-- The Python int() constructor on the plain decimal strings this program
stores (none models the ValueError branch). -/
def parseNat (s : String) : Option Nat :=
  match s.data with
  | [] => none
  | l => digitsVal l none

/-- The Python int() constructor allowing a leading minus sign. -/
def parseInt (s : String) : Option Int :=
  match s.data with
  | '-' :: rest => (digitsVal rest none).map (fun n => -(n : Int))
  | _ => (parseNat s).map (fun n => (n : Int))

/-- Splitting on commas, as the Python str.split(",") call of get_message:
the empty string yields the singleton list of the empty string. -/
def splitCommaAux : List Char → List Char → List String
  | [], acc => [String.mk acc.reverse]
  | c :: cs, acc =>
    if c = ',' then String.mk acc.reverse :: splitCommaAux cs []
    else splitCommaAux cs (c :: acc)

/-- The Python split(",") on a string. -/
def splitComma (s : String) : List String :=
  splitCommaAux s.data []

/-- The Python ",".join call of enqueue_message. -/
def joinComma : List String → String
  | [] => ""
  | [s] => s
  | s :: rest => s ++ "," ++ joinComma rest

/-- One redis hash msg:{id}, with the fields written by enqueue_message and
update_message of redis_workers.py.  A none field is absent from the hash;
iso timestamps are modelled as Nat. -/
structure StoredData where
  id : Option String := none
  «to» : String := ""
  text : String := ""
  channel : Option String := none
  state : Option String := none
  attempts : Option String := none
  fallback_channels : Option String := none
  last_error : Option String := none
  created_at : Option Nat := none
  priority : Option String := none
  expires_at : Option Nat := none
  sent_at : Option Nat := none
  confirmed_at : Option Nat := none
  retry_after : Option Nat := none
  deriving DecidableEq, Repr

/-- The message record space: an association list from message id to its
hash. -/
abbrev Store := List (String × StoredData)

/-- Hash lookup (hgetall of msg:{id}; a missing key gives the empty hash,
modelled as none). -/
def lookupStore : Store → String → Option StoredData
  | [], _ => none
  | (k, d) :: rest, i => if k = i then some d else lookupStore rest i

/-- Replace or insert the hash of a key. -/
def setStore (store : Store) (i : String) (d : StoredData) : Store :=
  match store with
  | [] => [(i, d)]
  | (k, e) :: rest => if k = i then (i, d) :: rest else (k, e) :: setStore rest i d

/-- Delete of the hash of a key. -/
def delStore (store : Store) (i : String) : Store :=
  match store with
  | [] => []
  | (k, e) :: rest => if k = i then delStore rest i else (k, e) :: delStore rest i

/-- The field mapping written by update_message of redis_workers.py: state,
attempts, channel, last_error, sent_at, confirmed_at and retry_after only —
fallback_channels, priority and expires_at are not rewritten. -/
def hsetUpdate (d : StoredData) (msg : Message) : StoredData :=
  { d with
    state := some (stateValue msg.state)
    attempts := some (toString msg.attempts)
    channel := some (msg.channel.getD "")
    last_error := some (msg.last_error.getD "")
    sent_at := msg.sent_at
    confirmed_at := msg.confirmed_at
    retry_after := msg.retry_after }

/-- update_message(msg) of redis_workers.py.  hset creates the hash when the
key is absent, then only the mapped fields are present. -/
def update_message (store : Store) (msg : Message) : Store :=
  match lookupStore store msg.id with
  | some d => setStore store msg.id (hsetUpdate d msg)
  | none => setStore store msg.id (hsetUpdate {} msg)

/-- The two redis id lists and the record space; the head of each list is
the LPUSH side. -/
structure QState where
  store : Store
  sendQ : List String
  confirmQ : List String
  deriving Repr, DecidableEq

/-- BRPOP of a list: the element at the RPUSH side, none when empty. -/
def brpop (q : List String) : Option (String × List String) :=
  match q.getLast? with
  | none => none
  | some x => some (x, q.dropLast)

/-- enqueue_message of redis_workers.py.  The uuid and the two datetime.now()
calls are the msg_id and now arguments; the 24 hour expiry window is 86400
seconds. -/
def enqueue_message (st : QState) (msg_id «to» text channel : String)
    (fallback_channels : List String) (priority : Int) (now : Nat) : QState :=
  let d : StoredData :=
    { id := some msg_id
      «to» := «to»
      text := text
      channel := some channel
      state := some (stateValue MessageState.queued)
      attempts := some "0"
      fallback_channels := some (joinComma fallback_channels)
      created_at := some now
      priority := some (toString priority)
      expires_at := some (now + 86400) }
  let st := { st with store := setStore st.store msg_id d }
  if priority > 1 then { st with sendQ := msg_id :: st.sendQ }
  else { st with sendQ := st.sendQ ++ [msg_id] }

/-- Field restoration of get_message (lines 129 to 174 of redis_workers.py),
given the id already checked present.  Every absent or unparsable field
keeps the Message.__init__ default; the retry_after, sent_at, confirmed_at
and created_at fields of the hash are never read back. -/
def msgFromData (i : String) (d : StoredData) (now : Nat) : Message :=
  let msg := mkMessage i d.«to» d.text d.channel now
  let msg :=
    match d.state with
    | some s => { msg with state := (stateOfString s).getD MessageState.queued }
    | none => msg
  let msg :=
    match d.attempts with
    | some a => { msg with attempts := (parseNat a).getD 0 }
    | none => msg
  let msg :=
    match d.fallback_channels with
    | some fc => if fc ≠ "" then { msg with fallback_channels := splitComma fc } else msg
    | none => msg
  let msg :=
    match d.last_error with
    | some e => { msg with last_error := some e }
    | none => msg
  let msg :=
    match d.priority with
    | some p => { msg with priority := (parseInt p).getD 1 }
    | none => msg
  let msg :=
    match d.expires_at with
    | some t => { msg with expires_at := some t }
    | none => msg
  msg

/-- get_message(msg_id) of redis_workers.py: empty or id-less hash gives
none; an expired record is deleted and none returned; otherwise the hash is
deserialized.  Returns the result together with the possibly changed
store. -/
def get_message (store : Store) (msg_id : String) (now : Nat) :
    Option Message × Store :=
  match lookupStore store msg_id with
  | none => (none, store)
  | some d =>
    match d.id with
    | none => (none, store)
    | some i =>
      match d.expires_at with
      | some t =>
        if t < now then (none, delStore store msg_id)
        else (some (msgFromData i d now), store)
      | none => (some (msgFromData i d now), store)

/-- fallback_worker(msg) of redis_workers.py; returns the new queue state
together with the message object it mutated, which the caller keeps
using. -/
def fallback_worker (st : QState) (msg : Message) (now : Nat) : QState × Message :=
  match msg.fallback_channels with
  | [] =>
    let msg := { msg with state := MessageState.failed }
    ({ st with store := update_message st.store msg }, msg)
  | c :: rest =>
    let msg := { msg with channel := some c, fallback_channels := rest, attempts := 0 }
    let (ok, msg) := transition msg "reroute" now
    if ok then
      let st := { st with store := update_message st.store msg }
      ({ st with sendQ := msg.id :: st.sendQ }, msg)
    else (st, msg)

/-- Lines 278 to 284 of send_worker: the unconditional update followed by
the push onto the confirm list when the message ended in SENT. -/
def finishIter (st : QState) (msg : Message) : QState :=
  let st := { st with store := update_message st.store msg }
  if msg.state = MessageState.sent then { st with confirmQ := msg.id :: st.confirmQ }
  else st

/-- Lines 241 to 284 of send_worker of redis_workers.py, for a reloaded
message.  sendOutcome is the result of the send_via_channel adapter call:
none for success, some err when it raised err.  On the retry path, when the
retry transition were to succeed, line 262 evaluates time.time() although
the module never imports time; the NameError escapes to the handler of line
286, so the iteration ends with no further store or queue effect. -/
def sendCore (st : QState) (msg : Message) (now : Nat) (sendOutcome : Option String) :
    QState :=
  let (ok, msg) := transition msg "send" now
  let st := if ok then { st with store := update_message st.store msg } else st
  match sendOutcome with
  | none =>
    let (ok2, msg) := transition msg "success" now
    let st := if ok2 then { st with store := update_message st.store msg } else st
    finishIter st msg
  | some err =>
    let msg := { msg with last_error := some err, attempts := msg.attempts + 1 }
    if msg.attempts < msg.max_attempts then
      let (okR, msg) := transition msg "retry" now
      if okR then st
      else finishIter st msg
    else
      let (okF, msg) := transition msg "fallback" now
      if okF then
        let st := { st with store := update_message st.store msg }
        if msg.fallback_channels.isEmpty then
          let msg := { msg with state := MessageState.failed }
          let st := { st with store := update_message st.store msg }
          finishIter st msg
        else
          let (st, msg) := fallback_worker st msg now
          finishIter st msg
      else finishIter st msg

/-- One locked iteration of send_worker for a dequeued id (lines 227 to 290
of redis_workers.py), with the lock bookkeeping abstracted away.  When the
reloaded retry_after is truthy, evaluating the comparison of line 236 raises
NameError (the module never imports time), which the handler of line 286
absorbs; a zero retry_after is falsy and processing proceeds. -/
def send_worker_step (st : QState) (msg_id : String) (now : Nat)
    (sendOutcome : Option String) : QState :=
  match get_message st.store msg_id now with
  | (none, store2) => { st with store := store2 }
  | (some msg, store2) =>
    let st := { st with store := store2 }
    match msg.retry_after with
    | some t => if t ≠ 0 then st else sendCore st msg now sendOutcome
    | none => sendCore st msg now sendOutcome

/-- A message standing in the FALLBACK state with an exhausted fallback
list. -/
def m7 : Message :=
  { mkMessage "f" "+3" "t" (some "rcs") 0 with state := MessageState.fallback }

/-- A message standing in the FALLBACK state with one remaining fallback
channel. -/
def m8 : Message :=
  { mkMessage "g" "+4" "t" (some "rcs") 0 with
    state := MessageState.fallback, fallback_channels := ["email"] }

/-- A message standing in the terminal-side SENT state. -/
def m10 : Message := { mkMessage "x" "+2" "t" none 0 with state := MessageState.sent }

/-- Stored record of a QUEUED message on its last allowed attempt (attempts
2 of max 3) with one fallback channel left. -/
def c2data : StoredData :=
  { id := some "m1", «to» := "+1", text := "hi", channel := some "rcs",
    state := some "queued", attempts := some "2", fallback_channels := some "email",
    created_at := some 0, priority := some "1", expires_at := some 86400 }

/-- Stored record of a fresh QUEUED message (attempts 0 of max 3). -/
def c3data : StoredData :=
  { id := some "m1", «to» := "+1", text := "hi", channel := some "rcs",
    state := some "queued", attempts := some "0", fallback_channels := some "email",
    created_at := some 0, priority := some "1", expires_at := some 86400 }

/-- A contact declaring a preferred channel (imessage) it is not capable of,
while being capable of rcs and sms. -/
def c5contact : Contact :=
  { id := "c5", name := "n", phone := some "+1", email := none,
    imessage_capable := false, rcs_capable := true,
    preferred_channel := some ChannelPreference.imessage }

/-- A contact capable only of sms, with no preference. -/
def phoneOnlyContact : Contact := { id := "p", name := "p", phone := some "+1" }

/-- Stored record of a QUEUED message whose persisted retry_after (5000)
lies in the future of the read time 100. -/
def c8data : StoredData :=
  { id := some "m1", «to» := "+1", text := "hi", channel := some "sms",
    state := some "queued", attempts := some "0", fallback_channels := some "",
    created_at := some 0, priority := some "1", expires_at := some 86400,
    retry_after := some 5000 }

/-- Stored record whose expiry time 50 precedes the read time 100. -/
def c9data : StoredData :=
  { id := some "m1", «to» := "+1", text := "hi", channel := some "sms",
    state := some "queued", attempts := some "0",
    created_at := some 0, priority := some "1", expires_at := some 50 }

theorem lookupTransition_edge {s : MessageState} {e : String} {t : MessageState}
    (h : lookupTransition s e = some t) : edgeExists s t = true := by
  unfold lookupTransition at h
  cases hf : transitionTable.find? (fun p => p.1.1 == s && p.1.2 == e) with
  | none => rw [hf] at h; cases h
  | some p =>
    rw [hf] at h
    simp only [Option.map_some'] at h
    have hmem := List.mem_of_find?_eq_some hf
    have hpred := List.find?_some hf
    unfold edgeExists
    rw [List.any_eq_true]
    refine ⟨p, hmem, ?_⟩
    injection h with h2
    simp only [Bool.and_eq_true, beq_iff_eq] at hpred
    simp [hpred.1, h2, BEq.refl]

theorem transition_state_getD (msg : Message) (e : String) (now : Nat) :
    (transition msg e now).2.state = (lookupTransition msg.state e).getD msg.state := by
  unfold transition
  cases h : lookupTransition msg.state e with
  | none => rfl
  | some s2 =>
    simp only [Option.getD_some]
    split
    · rfl
    · split <;> rfl

/-- Every state change produced by the transition function follows an edge
of the table. -/
theorem transition_changes_only_along_edges (msg : Message) (e : String) (now : Nat) :
    (transition msg e now).2.state = msg.state ∨
      edgeExists msg.state ((transition msg e now).2.state) = true := by
  rw [transition_state_getD]
  cases h : lookupTransition msg.state e with
  | none => left; rfl
  | some s2 => right; exact lookupTransition_edge h

/-- Claim C1: transition moves the state exactly to the successor the table
lists for the current state and event; an unmatched pair leaves the whole
message unchanged and returns false; the function is total, so no call
raises. -/
theorem C1_transition_follows_table (msg : Message) (event : String) (now : Nat) :
    (∀ s, lookupTransition msg.state event = some s →
        (transition msg event now).1 = true ∧ (transition msg event now).2.state = s) ∧
    (lookupTransition msg.state event = none →
        (transition msg event now).1 = false ∧ (transition msg event now).2 = msg) := by
  constructor
  · intro s hs
    refine ⟨?_, ?_⟩
    · unfold transition; rw [hs]
    · rw [transition_state_getD, hs]; rfl
  · intro h
    unfold transition
    rw [h]
    exact ⟨rfl, rfl⟩

/-- Witness for C1 at a concrete drafted message and the route event. -/
theorem C1_transition_follows_table_witness :
    (transition (mkMessage "w" "+1" "t" none 0) "route" 5).1 = true ∧
    (transition (mkMessage "w" "+1" "t" none 0) "route" 5).2.state = MessageState.routing :=
  (C1_transition_follows_table (mkMessage "w" "+1" "t" none 0) "route" 5).1
    MessageState.routing (by rfl)

/-- Claim C2, evaluated at the failing input: a QUEUED message on its last
allowed attempt (attempts 2 of 3) with fallback channel email, whose send
fails.  The worker increments attempts to 3 and then attempts the fallback
transition from SENDING; since the send worker never fires the error event,
the table rejects it, so the message is persisted stuck in SENDING with its
original channel: it is neither rerouted onto email with attempts 0 and
state QUEUED nor marked FAILED, and nothing is enqueued anywhere. -/
theorem C2_exhausted_attempts_leave_sending :
    send_worker_step ⟨[("m1", c2data)], [], []⟩ "m1" 100 (some "boom") =
      ({ store := [("m1", { c2data with
                              state := some "sending"
                              attempts := some "3"
                              channel := some "rcs"
                              last_error := some "boom" })]
         sendQ := []
         confirmQ := [] } : QState) := by
  rfl

/-- Claim C3, evaluated at the failing input: a fresh QUEUED message whose
first send attempt fails (attempts becomes 1 < 3).  The retry transition is
attempted from SENDING and rejected (the error event is never fired), so the
message stays in SENDING, retry_after remains unset and the id is not
re-enqueued onto the send list; even on the intended path, line 262 of
redis_workers.py would raise NameError because the module never imports
time. -/
theorem C3_failed_retry_not_scheduled :
    send_worker_step ⟨[("m1", c3data)], [], []⟩ "m1" 100 (some "boom") =
      ({ store := [("m1", { c3data with
                              state := some "sending"
                              attempts := some "1"
                              channel := some "rcs"
                              last_error := some "boom" })]
         sendQ := []
         confirmQ := [] } : QState) := by
  rfl

/-- Claim C4, evaluated at the failing input: enqueue priority-1 ids m1 then
m2 and priority-2 id m3.  The list reads [m3, m1, m2] from the LPUSH side,
and BRPOP (which the send worker uses) pops the same side RPUSH appends to:
the first dequeue returns m2, the newest priority-1 id, not the oldest id
m1 and not the expedited id m3 (which is returned last). -/
theorem C4_brpop_returns_newest_normal_id :
    (enqueue_message (enqueue_message (enqueue_message ⟨[], [], []⟩
        "m1" "+1" "a" "sms" [] 1 0) "m2" "+1" "b" "sms" [] 1 0)
        "m3" "+1" "c" "sms" [] 2 0).sendQ = ["m3", "m1", "m2"] ∧
    brpop ["m3", "m1", "m2"] = some ("m2", ["m3", "m1"]) :=
  ⟨rfl, rfl⟩

/-- Claim C7, counterexample: the fallback routine applied to a message in
FALLBACK state with an empty fallback list moves the state to FAILED,
although the transition table has no edge from FALLBACK to FAILED at all
(edgeExists is false), so by transition_changes_only_along_edges no call of
the transition function can produce this change: the state field is
assigned directly. -/
theorem C7_counterexample :
    m7.state = MessageState.fallback ∧
    (fallback m7 0).2.state = MessageState.failed ∧
    edgeExists MessageState.fallback MessageState.failed = false :=
  ⟨rfl, rfl, rfl⟩

/-- Claim C7 as amended: the state changes of the fallback routines go
through the transition function except on the empty-fallback path, where
FAILED is assigned to the state field directly, in both
routing_state_machine.fallback and redis_workers.fallback_worker. -/
theorem C7_amended_direct_assignment_only_on_empty (st : QState) (msg : Message) (now : Nat) :
    (msg.fallback_channels = [] → (fallback msg now).2.state = MessageState.failed) ∧
    (∀ c rest, msg.fallback_channels = c :: rest →
      (fallback msg now).2 =
        (transition { msg with channel := some c, fallback_channels := rest, attempts := 0 }
          "reroute" now).2) ∧
    (msg.fallback_channels = [] → (fallback_worker st msg now).2.state = MessageState.failed) ∧
    (∀ c rest, msg.fallback_channels = c :: rest →
      (fallback_worker st msg now).2 =
        (transition { msg with channel := some c, fallback_channels := rest, attempts := 0 }
          "reroute" now).2) := by
  refine ⟨?_, ?_, ?_, ?_⟩
  · intro h; simp [fallback, h]
  · intro c rest h; simp [fallback, h]
  · intro h; simp [fallback_worker, h]
  · intro c rest h
    simp only [fallback_worker, h]
    split <;> rfl

/-- Witness for the amended C7 at the concrete messages m7 (empty fallback
list) and m8 (fallback list [email]). -/
theorem C7_amended_direct_assignment_only_on_empty_witness :
    (fallback m7 0).2.state = MessageState.failed ∧
    (fallback m8 0).2 =
      (transition { m8 with channel := some "email", fallback_channels := [], attempts := 0 }
        "reroute" 0).2 ∧
    (fallback_worker ⟨[], [], []⟩ m7 0).2.state = MessageState.failed ∧
    (fallback_worker ⟨[], [], []⟩ m8 0).2 =
      (transition { m8 with channel := some "email", fallback_channels := [], attempts := 0 }
        "reroute" 0).2 :=
  ⟨(C7_amended_direct_assignment_only_on_empty ⟨[], [], []⟩ m7 0).1 rfl,
   (C7_amended_direct_assignment_only_on_empty ⟨[], [], []⟩ m8 0).2.1 "email" [] rfl,
   (C7_amended_direct_assignment_only_on_empty ⟨[], [], []⟩ m7 0).2.2.1 rfl,
   (C7_amended_direct_assignment_only_on_empty ⟨[], [], []⟩ m8 0).2.2.2 "email" [] rfl⟩

/-- Claim C10, counterexample: process_message with an unknown contact on
the concrete message m10, which stands in state SENT.  The call does assign
channel sms and return true, but the message finishes in SENT, not QUEUED
(the route and ok transitions are rejected from SENT), so the claim as
stated over every message is false. -/
theorem C10_counterexample :
    (process_message m10 none 7).1 = true ∧
    (process_message m10 none 7).2.channel = some "sms" ∧
    (process_message m10 none 7).2.state = MessageState.sent ∧
    MessageState.sent ≠ MessageState.queued :=
  ⟨rfl, rfl, rfl, by decide⟩

/-- Claim C10 as amended: for every message in its creation state DRAFTED,
processing with an unknown contact (None) passes the is_blocked safety
check, assigns channel sms, finishes in QUEUED and returns true. -/
theorem C10_amended_drafted_unknown_contact (msg : Message) (now : Nat)
    (h : msg.state = MessageState.drafted) :
    is_blocked none msg = false ∧
    (process_message msg none now).1 = true ∧
    (process_message msg none now).2.state = MessageState.queued ∧
    (process_message msg none now).2.channel = some "sms" := by
  obtain ⟨i, t, x, st, ch, a, ma, fc, le, ca, sa, cfa, pr, ea, ra, md⟩ := msg
  replace h : st = MessageState.drafted := h
  subst h
  exact ⟨rfl, rfl, rfl, rfl⟩

/-- Witness for the amended C10 at a concrete freshly created message. -/
theorem C10_amended_drafted_unknown_contact_witness :
    is_blocked none (mkMessage "w" "+1" "t" none 0) = false ∧
    (process_message (mkMessage "w" "+1" "t" none 0) none 3).1 = true ∧
    (process_message (mkMessage "w" "+1" "t" none 0) none 3).2.state = MessageState.queued ∧
    (process_message (mkMessage "w" "+1" "t" none 0) none 3).2.channel = some "sms" :=
  C10_amended_drafted_unknown_contact (mkMessage "w" "+1" "t" none 0) 3 rfl

/-- Claim C5, counterexample: the contact c5contact declares preferred
channel imessage but is not imessage capable (it is capable of rcs and
sms).  The source returns the preferred channel unconditionally, imessage,
while the claim prescribes the highest-priority capable channel, rcs. -/
theorem C5_counterexample :
    get_best_channel_for_contact (some c5contact) = "imessage" ∧
    capableOf c5contact ChannelPreference.imessage = false ∧
    specPrimaryChannel (some c5contact) = "rcs" :=
  ⟨rfl, rfl, rfl⟩

/-- Claim C5 as amended: a declared preferred channel is chosen as primary
unconditionally, capability is not checked; otherwise the highest-priority
capable channel is chosen, and sms is the default both for a missing
snapshot and for a capability-less one. -/
theorem C5_amended_preference_unconditional (oc : Option Contact) :
    get_best_channel_for_contact oc = amendedPrimaryChannel oc := by
  cases oc with
  | none => rfl
  | some c =>
    cases hp : c.preferred_channel with
    | some p =>
      simp [get_best_channel_for_contact, amendedPrimaryChannel, get_preferred_channel, hp]
    | none =>
      by_cases h1 : c.imessage_capable = true <;> by_cases h2 : c.rcs_capable = true <;>
        by_cases h3 : truthyOpt c.email = true <;> by_cases h4 : truthyOpt c.phone = true <;>
        simp [get_best_channel_for_contact, amendedPrimaryChannel, get_preferred_channel,
          channelPriorityOrder, capableOf, List.find?, hp, h1, h2, h3, h4]

/-- Claim C6, counterexample: with no capability information at all (no
contact record) the source returns the fixed chain [sms, email] where the
claim prescribes the empty chain; and for a contact capable only of sms the
source returns [sms], not excluding the chosen primary sms, where the claim
prescribes the empty chain. -/
theorem C6_counterexample :
    get_fallback_channels_for_contact none = ["sms", "email"] ∧
    specFallbackChain none = [] ∧
    get_fallback_channels_for_contact (some phoneOnlyContact) = ["sms"] ∧
    specFallbackChain (some phoneOnlyContact) = [] :=
  ⟨rfl, rfl, rfl, rfl⟩

/-- Claim C6 as amended: the fallback chain is the duplicate-free list
holding the preferred channel first when set, then every capable channel in
priority order other than the preferred one; the chosen primary is not
excluded; a missing contact yields the fixed chain [sms, email]; a contact
with no capabilities and no preference yields the empty chain. -/
theorem C6_amended_chain_not_excluding_primary (oc : Option Contact) :
    get_fallback_channels_for_contact oc = amendedFallbackChain oc := by
  cases oc with
  | none => rfl
  | some c =>
    cases hp : c.preferred_channel with
    | none =>
      by_cases h1 : c.imessage_capable = true <;> by_cases h2 : c.rcs_capable = true <;>
        by_cases h3 : truthyOpt c.email = true <;> by_cases h4 : truthyOpt c.phone = true <;>
        simp [get_fallback_channels_for_contact, get_fallback_channels, amendedFallbackChain,
          addIfAbsent, channelPriorityOrder, capableOf, hp, h1, h2, h3, h4]
    | some p =>
      cases p <;>
        (by_cases h1 : c.imessage_capable = true <;> by_cases h2 : c.rcs_capable = true <;>
          by_cases h3 : truthyOpt c.email = true <;> by_cases h4 : truthyOpt c.phone = true <;>
          simp [get_fallback_channels_for_contact, get_fallback_channels, amendedFallbackChain,
            addIfAbsent, channelPriorityOrder, capableOf, hp, h1, h2, h3, h4])

/-- Claim C8: get_message never restores the retry_after field (first
conjunct, over every stored record), so the deferral guard of the send
worker is always falsy.  Evaluated at the failing input c8data, whose
persisted retry_after 5000 lies in the future of the read time 100: instead
of pushing the id back onto the send list unprocessed, the worker processes
the message through SENDING to SENT and pushes it onto the confirm list. -/
theorem C8_retry_after_never_restored :
    (∀ (i : String) (d : StoredData) (now : Nat), (msgFromData i d now).retry_after = none) ∧
    (send_worker_step ⟨[("m1", c8data)], [], []⟩ "m1" 100 none).sendQ = [] ∧
    (send_worker_step ⟨[("m1", c8data)], [], []⟩ "m1" 100 none).confirmQ = ["m1"] ∧
    ((lookupStore (send_worker_step ⟨[("m1", c8data)], [], []⟩ "m1" 100 none).store "m1").map
      StoredData.state) = some (some "sent") := by
  refine ⟨?_, rfl, rfl, rfl⟩
  intro i d now
  unfold msgFromData
  repeat' split
  all_goals rfl

/-- Claim C9: a read of a record whose expiry time lies strictly in the
past deletes the record from the store and returns none, so an expired
message is never returned. -/
theorem C9_expired_read_deletes (store : Store) (i : String) (d : StoredData) (now t : Nat)
    (hd : lookupStore store i = some d) (hid : d.id.isSome = true)
    (ht : d.expires_at = some t) (hlt : t < now) :
    (get_message store i now).1 = none ∧ (get_message store i now).2 = delStore store i := by
  obtain ⟨v, hv⟩ := Option.isSome_iff_exists.mp hid
  refine ⟨?_, ?_⟩ <;> simp [get_message, hd, hv, ht, hlt]

/-- Witness for C9 at a concrete store holding one record that expired at
time 50, read at time 100. -/
theorem C9_expired_read_deletes_witness :
    (get_message [("m1", c9data)] "m1" 100).1 = none ∧
    (get_message [("m1", c9data)] "m1" 100).2 = delStore [("m1", c9data)] "m1" :=
  C9_expired_read_deletes [("m1", c9data)] "m1" c9data 100 50 rfl rfl rfl (by decide)
